import Mathlib

/-!
Verification of the GeoJSON converter `convert_to_geojson` from `src/app.py`
(lines 16-62) of the Dash GNCV price dashboard.

Modelling choices (shallow embedding of the Python/pandas code):

* A pandas cell value is modelled by the inductive type `CellValue`, covering
  the runtime types the converter inspects (`pd.Timestamp`, `np.integer`,
  `np.floating`, `np.bool_`), the plain Python scalars (str, int, float, bool,
  None), a plain `datetime` object distinct from `pd.Timestamp` (in Python,
  `datetime.datetime` is the *superclass* of `pd.Timestamp`, so a plain
  datetime is not an instance of `pd.Timestamp`), and an opaque constructor
  `other` for any further object type.  `pd.Timestamp`, plain datetimes and
  opaque objects carry the string produced by Python's `str()` on them.
* Python floats are modelled exactly: `PyFloat` is a rational number or one of
  `inf`, `-inf`, `nan`.  The program performs no floating-point arithmetic
  (values are only passed through `float(...)`), so exact rationals are a
  faithful model and no IEEE rounding is involved.
* A DataFrame row is an association list from column names to cell values;
  a DataFrame carries its column list (the schema) plus the rows.  Row
  iteration is modelled as preserving each cell's runtime type (the
  object-dtype case, which is the one realised by the dashboard's CSV data).
* Python exception propagation is modelled by `Except PyErr`: `dropna` raises
  `KeyError` when a subset column is absent (pandas does this even for an
  empty frame), `row[col]` raises `KeyError` when the column is absent from
  the row's index, and `float(...)` raises `ValueError` on an unparseable
  string and `TypeError` on non-numeric objects.
* `float` applied to a string is modelled by `parsePyFloat`, which covers
  signed decimal literals (with an optional single point) and the `inf` /
  `infinity` / `nan` spellings, case-insensitively.  Exponents, underscores
  and surrounding whitespace are not modelled; every string appearing in this
  development is decided identically by Python's `float` and by this model.
* `str()` on a numpy float is modelled by `reprPyFloat`; for finite values it
  renders a decimal expansion truncated at 17 fractional digits.  No theorem
  below depends on the exact digits, only on the result being a string.
* The `properties` dict is modelled as an association list built in column
  order; the converter is never called with duplicate property columns.
-/

namespace Dash

/-- Python exceptions that the converter can raise. -/
inductive PyErr where
  | keyError
  | valueError
  | typeError
deriving DecidableEq, Repr

/-- Model of a Python float: an exact rational, or one of the three
non-finite values. -/
inductive PyFloat where
  | finite (q : ℚ)
  | inf
  | negInf
  | nan
deriving DecidableEq, Repr

/-- Whether a Python float is finite (not `inf`, `-inf` or `nan`). -/
def PyFloat.isFinite : PyFloat → Bool
  | .finite _ => true
  | _ => false

/-- Runtime value stored in a pandas cell, as seen by the converter's
`isinstance` dispatch.  `pdTimestamp`, `pyDatetime` and `other` carry the
string that Python's `str()` yields on the object. -/
inductive CellValue where
  | pyStr (s : String)
  | pyInt (n : ℤ)
  | pyFloat (f : PyFloat)
  | pyBool (b : Bool)
  | pyNone
  | pdTimestamp (s : String)
  | npInteger (n : ℤ)
  | npFloating (f : PyFloat)
  | npBool (b : Bool)
  | pyDatetime (s : String)
  | other (s : String)
deriving DecidableEq, Repr

/-- Values that pandas `isna`/`dropna` treats as missing: `None` and float
`NaN` (both the Python float and the numpy scalar). -/
def isNA : CellValue → Bool
  | .pyNone => true
  | .pyFloat .nan => true
  | .npFloating .nan => true
  | _ => false

/-- Value of a list of decimal digit characters. -/
def digitsVal (cs : List Char) : ℕ :=
  cs.foldl (fun acc c => acc * 10 + (c.toNat - 48)) 0

/-- Parse an unsigned decimal literal (digits with at most one point, at
least one digit) into an exact rational. -/
def parseDecimal (cs : List Char) : Option ℚ :=
  match cs.splitOn '.' with
  | [ip] =>
      if !ip.isEmpty && ip.all Char.isDigit then some (digitsVal ip) else none
  | [ip, fp] =>
      if !(ip.isEmpty && fp.isEmpty) && ip.all Char.isDigit && fp.all Char.isDigit then
        some ((digitsVal ip : ℚ) + (digitsVal fp : ℚ) / ((10 : ℚ) ^ fp.length))
      else none
  | _ => none

/-- ASCII lowercasing of one character (all the case-insensitivity Python's
float-literal spellings need). -/
def lowerChar (c : Char) : Char :=
  if c.isUpper then Char.ofNat (c.toNat + 32) else c

/-- Model of Python `float(s)` on a string: optional sign, then either a
decimal literal or one of the `inf` / `infinity` / `nan` spellings
(case-insensitive).  Returns `none` where Python raises `ValueError`. -/
def parsePyFloat (s : String) : Option PyFloat :=
  let signed : Bool × List Char :=
    match s.toList with
    | '-' :: rest => (true, rest)
    | '+' :: rest => (false, rest)
    | cs => (false, cs)
  let neg := signed.1
  let body := signed.2
  let lower := body.map lowerChar
  if lower = ['i', 'n', 'f'] ∨ lower = ['i', 'n', 'f', 'i', 'n', 'i', 't', 'y'] then
    some (if neg then .negInf else .inf)
  else if lower = ['n', 'a', 'n'] then
    some .nan
  else
    match parseDecimal body with
    | some q => some (.finite (if neg then -q else q))
    | none => none

/-- Model of Python `float(v)` on a cell value (line 49 of `app.py`):
numeric scalars convert, strings are parsed, everything else raises. -/
def floatOfCell : CellValue → Except PyErr PyFloat
  | .pyFloat f => .ok f
  | .npFloating f => .ok f
  | .pyInt n => .ok (.finite n)
  | .npInteger n => .ok (.finite n)
  | .pyBool b => .ok (.finite (if b then 1 else 0))
  | .npBool b => .ok (.finite (if b then 1 else 0))
  | .pyStr s =>
      match parsePyFloat s with
      | some f => .ok f
      | none => .error .valueError
  | .pyNone => .error .typeError
  | .pdTimestamp _ => .error .typeError
  | .pyDatetime _ => .error .typeError
  | .other _ => .error .typeError

/-- Decimal digits of the fraction `num/den` (with `num < den`), truncated
after `fuel` digits. -/
def fracDigits (num den : ℕ) : ℕ → String
  | 0 => ""
  | fuel + 1 =>
      if num = 0 then ""
      else
        (Char.ofNat (48 + num * 10 / den)).toString ++ fracDigits (num * 10 % den) den fuel

/-- Model of Python `str()` on a float value: `inf`, `-inf`, `nan`, or a
decimal rendering of the exact rational (truncated at 17 fractional
digits). -/
def reprPyFloat : PyFloat → String
  | .inf => "inf"
  | .negInf => "-inf"
  | .nan => "nan"
  | .finite q =>
      let sign := if q < 0 then "-" else ""
      let a := q.num.natAbs
      let d := q.den
      let fr := a % d
      sign ++ toString (a / d) ++ (if fr = 0 then ".0" else "." ++ fracDigits fr d 17)

/-- Model of Python `str()` on a cell value. -/
def pyStrRepr : CellValue → String
  | .pyStr s => s
  | .pyInt n => toString n
  | .pyFloat f => reprPyFloat f
  | .pyBool b => if b then "True" else "False"
  | .pyNone => "None"
  | .pdTimestamp s => s
  | .npInteger n => toString n
  | .npFloating f => reprPyFloat f
  | .npBool b => if b then "True" else "False"
  | .pyDatetime s => s
  | .other s => s

/-- The `isinstance(row[col], (pd.Timestamp, np.integer, np.floating,
np.bool_))` test on line 39 of `app.py`. -/
def isUnserializableWrapper : CellValue → Bool
  | .pdTimestamp _ => true
  | .npInteger _ => true
  | .npFloating _ => true
  | .npBool _ => true
  | _ => false

/-- The per-value normalization of lines 39-42 of `app.py`: the four wrapper
types are replaced by their `str()` form, every other value passes through
unchanged. -/
def normalizeValue (v : CellValue) : CellValue :=
  if isUnserializableWrapper v then .pyStr (pyStrRepr v) else v

/-- Values the standard `json` encoder serializes directly: the plain Python
scalars.  Numpy scalars, timestamps, datetimes and arbitrary objects make
`json.dump` raise. -/
def jsonSerializable : CellValue → Bool
  | .pyStr _ => true
  | .pyInt _ => true
  | .pyFloat _ => true
  | .pyBool _ => true
  | .pyNone => true
  | _ => false

/-- A DataFrame row: an association list from column names to cell values. -/
abbrev Row := List (String × CellValue)

/-- A DataFrame: the column schema plus the rows (each row holding one value
per column). -/
structure DataFrame where
  columns : List String
  rows : List Row
deriving DecidableEq, Repr

/-- Value of row `r` at column `c`.  In pandas every row has a value for
every schema column; an absent association is modelled as `None`. -/
def getCell (r : Row) (c : String) : CellValue :=
  match r.lookup c with
  | some v => v
  | none => .pyNone

/-- Model of `df.dropna(subset=...)` (line 32 of `app.py`): raises `KeyError`
if a subset column is absent from the schema (pandas does so even on an
empty frame), otherwise keeps exactly the rows in which no subset column is
missing. -/
def dropna (df : DataFrame) (subset : List String) : Except PyErr DataFrame :=
  if subset.all (fun c => decide (c ∈ df.columns)) then
    .ok ⟨df.columns, df.rows.filter (fun r => subset.all (fun c => !isNA (getCell r c)))⟩
  else
    .error .keyError

/-- Model of `row[col]` on a row Series: the Series' index is the schema, so
the access raises `KeyError` exactly when the column is absent from the
schema. -/
def seriesGet (cols : List String) (r : Row) (c : String) : Except PyErr CellValue :=
  if c ∈ cols then .ok (getCell r c) else .error .keyError

/-- A GeoJSON geometry as built on lines 47-50 of `app.py`: the literal
`"Point"` tag and the coordinate list. -/
structure Geometry where
  type : String
  coordinates : List PyFloat
deriving DecidableEq, Repr

/-- A GeoJSON Feature as built on lines 45-52 of `app.py`. -/
structure Feature where
  type : String
  geometry : Geometry
  properties : List (String × CellValue)
deriving DecidableEq, Repr

/-- A GeoJSON FeatureCollection as built on lines 57-60 of `app.py`. -/
structure FeatureCollection where
  type : String
  features : List Feature
deriving DecidableEq, Repr

/-- Exception propagation: run the continuation on a successful value, let a
raised exception pass through. -/
def bindE (x : Except PyErr α) (g : α → Except PyErr β) : Except PyErr β :=
  match x with
  | .error e => .error e
  | .ok a => g a

/-- The property-building loop of lines 36-42 of `app.py`: for each column in
order, read the row's value and normalize it; a missing column raises
`KeyError` at that point. -/
def buildProperties (cols : List String) (r : Row) : List String → Except PyErr (List (String × CellValue))
  | [] => .ok []
  | c :: cs =>
      bindE (seriesGet cols r c) fun v =>
        bindE (buildProperties cols r cs) fun rest =>
          .ok ((c, normalizeValue v) :: rest)

/-- The feature construction of lines 35-52 of `app.py` for one row: build
the properties, then the Point geometry `[float(row[lon_col]),
float(row[lat_col])]` (evaluated in that order). -/
def buildFeature (cols : List String) (lat_col lon_col : String) (properties_cols : List String)
    (r : Row) : Except PyErr Feature :=
  bindE (buildProperties cols r properties_cols) fun properties =>
    bindE (seriesGet cols r lon_col) fun lonv =>
      bindE (floatOfCell lonv) fun lonf =>
        bindE (seriesGet cols r lat_col) fun latv =>
          bindE (floatOfCell latv) fun latf =>
            .ok ⟨"Feature", ⟨"Point", [lonf, latf]⟩, properties⟩

/-- The `for _, row in valid_df.iterrows()` loop of lines 34-54 of `app.py`:
features are accumulated in row order; the first raised exception aborts the
loop (and the whole call). -/
def buildFeatures (cols : List String) (lat_col lon_col : String) (properties_cols : List String) :
    List Row → Except PyErr (List Feature)
  | [] => .ok []
  | r :: rs =>
      bindE (buildFeature cols lat_col lon_col properties_cols r) fun f =>
        bindE (buildFeatures cols lat_col lon_col properties_cols rs) fun fs =>
          .ok (f :: fs)

/-- The converter `convert_to_geojson` of lines 16-62 of `app.py`. -/
def convert_to_geojson (df : DataFrame) (lat_col lon_col : String)
    (properties_cols : List String) : Except PyErr FeatureCollection :=
  bindE (dropna df [lat_col, lon_col]) fun valid_df =>
    bindE (buildFeatures df.columns lat_col lon_col properties_cols valid_df.rows) fun features =>
      .ok ⟨"FeatureCollection", features⟩

/-- The rows that survive the missing-coordinate filter of line 32: those
whose latitude and longitude cells are both non-missing. -/
def validRows (df : DataFrame) (lat_col lon_col : String) : List Row :=
  df.rows.filter (fun r => !isNA (getCell r lat_col) && !isNA (getCell r lon_col))

/-- Concrete frame: one fully geocoded row and one row with a missing
latitude (the spec's own two-row scenario). -/
def dfC1w : DataFrame :=
  ⟨["LAT", "LON", "CITY"],
    [[("LAT", .pyFloat (.finite 4.5)), ("LON", .pyFloat (.finite (-74.1))), ("CITY", .pyStr "Bogota")],
     [("LAT", .pyNone), ("LON", .pyFloat (.finite (-74.0))), ("CITY", .pyStr "X")]]⟩

/-- The FeatureCollection the converter produces on `dfC1w`. -/
def fcC1w : FeatureCollection :=
  ⟨"FeatureCollection",
    [⟨"Feature", ⟨"Point", [.finite (-74.1), .finite 4.5]⟩, [("CITY", .pyStr "Bogota")]⟩]⟩

/-- Concrete frame with a `pd.Timestamp`-typed property column (the spec's
date scenario). -/
def dfC3w : DataFrame :=
  ⟨["LAT", "LON", "FECHA"],
    [[("LAT", .pyFloat (.finite 4.5)), ("LON", .pyFloat (.finite (-74.1))),
      ("FECHA", .pdTimestamp "2025-03-14 00:00:00")]]⟩

/-- The FeatureCollection the converter produces on `dfC3w`: the timestamp is
stringified. -/
def fcC3w : FeatureCollection :=
  ⟨"FeatureCollection",
    [⟨"Feature", ⟨"Point", [.finite (-74.1), .finite 4.5]⟩,
      [("FECHA", .pyStr "2025-03-14 00:00:00")]⟩]⟩

/-- Concrete frame whose property column holds a plain string. -/
def dfC6w : DataFrame :=
  ⟨["LAT", "LON", "CITY"],
    [[("LAT", .pyFloat (.finite 4)), ("LON", .pyFloat (.finite 5)), ("CITY", .pyStr "Bogota")]]⟩

/-- The FeatureCollection the converter produces on `dfC6w`. -/
def fcC6w : FeatureCollection :=
  ⟨"FeatureCollection",
    [⟨"Feature", ⟨"Point", [.finite 5, .finite 4]⟩, [("CITY", .pyStr "Bogota")]⟩]⟩

/-- Concrete frame with finite numeric coordinates and no property columns. -/
def dfC9w : DataFrame :=
  ⟨["LAT", "LON"], [[("LAT", .pyFloat (.finite 4)), ("LON", .pyFloat (.finite 5))]]⟩

/-- The FeatureCollection the converter produces on `dfC9w`. -/
def fcC9w : FeatureCollection :=
  ⟨"FeatureCollection", [⟨"Feature", ⟨"Point", [.finite 5, .finite 4]⟩, []⟩]⟩

/-- A bind succeeds exactly when its argument succeeds and the continuation
succeeds on the resulting value. -/
lemma bindE_ok_iff {α β : Type} {x : Except PyErr α} {g : α → Except PyErr β} {b : β} :
    bindE x g = .ok b ↔ ∃ a, x = .ok a ∧ g a = .ok b := by
  cases x with
  | error e => simp [bindE]
  | ok a => simp [bindE]

/-- A raised exception passes through a bind. -/
lemma bindE_error_left {α β : Type} {x : Except PyErr α} {g : α → Except PyErr β} {e : PyErr}
    (h : x = .error e) : bindE x g = .error e := by
  rw [h]; rfl

/-- A successful value is passed to the continuation. -/
lemma bindE_ok_left {α β : Type} {x : Except PyErr α} {g : α → Except PyErr β} {a : α}
    (h : x = .ok a) : bindE x g = g a := by
  rw [h]; rfl

/-- A bind whose argument raises is not a success. -/
lemma bindE_isOk_false_left {α β : Type} {x : Except PyErr α} {g : α → Except PyErr β}
    (h : x.isOk = false) : (bindE x g).isOk = false := by
  cases x with
  | error e => rfl
  | ok a => simp [Except.isOk, Except.toBool] at h

/-- Reading a column that is in the schema never raises. -/
lemma seriesGet_of_mem {cols : List String} {r : Row} {c : String} (h : c ∈ cols) :
    seriesGet cols r c = .ok (getCell r c) := by
  simp [seriesGet, h]

/-- When the property loop succeeds it returns, in order, each requested
column paired with its normalized value. -/
lemma buildProperties_ok_map {cols : List String} {r : Row} :
    ∀ {props : List String} {ps : List (String × CellValue)},
      buildProperties cols r props = .ok ps →
      ps = props.map (fun c => (c, normalizeValue (getCell r c))) := by
  intro props
  induction props with
  | nil =>
    intro ps h
    simp only [buildProperties, Except.ok.injEq] at h
    simp [← h]
  | cons c cs ih =>
    intro ps h
    rw [buildProperties] at h
    obtain ⟨v, hv, h⟩ := bindE_ok_iff.mp h
    obtain ⟨rest, hrest, h⟩ := bindE_ok_iff.mp h
    simp only [Except.ok.injEq] at h
    have hvc : getCell r c = v := by
      by_cases hc : c ∈ cols
      · rw [seriesGet_of_mem hc] at hv
        exact (Except.ok.injEq _ _ ▸ hv)
      · simp [seriesGet, hc] at hv
    rw [← h, ← hvc, ih hrest]
    simp

/-- A requested property column absent from the schema makes the property
loop raise `KeyError` (on whichever absent column comes first). -/
lemma buildProperties_error_of_missing {cols : List String} {r : Row} :
    ∀ {props : List String} {p : String}, p ∈ props → p ∉ cols →
      buildProperties cols r props = .error .keyError := by
  intro props
  induction props with
  | nil => intro p hp; exact absurd hp (by simp)
  | cons c cs ih =>
    intro p hp hpc
    rw [buildProperties]
    by_cases hc : c ∈ cols
    · have hpcs : p ∈ cs := by
        rcases List.mem_cons.mp hp with h | h
        · exact absurd (h ▸ hpc) (by simpa using hc)
        · exact h
      rw [bindE_ok_left (seriesGet_of_mem hc)]
      exact bindE_error_left (ih hpcs hpc)
    · exact bindE_error_left (by simp [seriesGet, hc])

/-- Anatomy of a successfully built Feature: the `"Feature"`/`"Point"` tags,
the coordinates `[float(lon), float(lat)]` in that order, and the normalized
properties. -/
lemma buildFeature_ok_parts {cols : List String} {lat lon : String} {props : List String}
    {r : Row} {f : Feature} (hlat : lat ∈ cols) (hlon : lon ∈ cols)
    (h : buildFeature cols lat lon props r = .ok f) :
    ∃ lonf latf,
      floatOfCell (getCell r lon) = .ok lonf ∧
      floatOfCell (getCell r lat) = .ok latf ∧
      f = ⟨"Feature", ⟨"Point", [lonf, latf]⟩,
            props.map (fun c => (c, normalizeValue (getCell r c)))⟩ := by
  rw [buildFeature] at h
  obtain ⟨ps, hp, h⟩ := bindE_ok_iff.mp h
  obtain ⟨lonv, hlonv, h⟩ := bindE_ok_iff.mp h
  obtain ⟨lonf, hlonf, h⟩ := bindE_ok_iff.mp h
  obtain ⟨latv, hlatv, h⟩ := bindE_ok_iff.mp h
  obtain ⟨latf, hlatf, h⟩ := bindE_ok_iff.mp h
  simp only [Except.ok.injEq] at h
  rw [seriesGet_of_mem hlon] at hlonv
  rw [seriesGet_of_mem hlat] at hlatv
  simp only [Except.ok.injEq] at hlonv hlatv
  refine ⟨lonf, latf, ?_, ?_, ?_⟩
  · rw [hlonv]; exact hlonf
  · rw [hlatv]; exact hlatf
  · rw [← h, buildProperties_ok_map hp]

/-- A successful row loop pairs each surviving row with its Feature. -/
lemma buildFeatures_ok_forall₂ {cols : List String} {lat lon : String} {props : List String} :
    ∀ {rs : List Row} {fs : List Feature},
      buildFeatures cols lat lon props rs = .ok fs →
      List.Forall₂ (fun r f => buildFeature cols lat lon props r = .ok f) rs fs := by
  intro rs
  induction rs with
  | nil =>
    intro fs h
    simp only [buildFeatures, Except.ok.injEq] at h
    rw [← h]
    exact List.Forall₂.nil
  | cons r rs ih =>
    intro fs h
    rw [buildFeatures] at h
    obtain ⟨f, hf, h⟩ := bindE_ok_iff.mp h
    obtain ⟨fs', hfs, h⟩ := bindE_ok_iff.mp h
    simp only [Except.ok.injEq] at h
    rw [← h]
    exact List.Forall₂.cons hf (ih hfs)

/-- If building any one of the rows raises, the whole loop raises (the first
exception aborts the batch). -/
lemma buildFeatures_not_ok_of_mem {cols : List String} {lat lon : String} {props : List String} :
    ∀ {rs : List Row} {r : Row}, r ∈ rs →
      (buildFeature cols lat lon props r).isOk = false →
      (buildFeatures cols lat lon props rs).isOk = false := by
  intro rs
  induction rs with
  | nil => intro r hr; exact absurd hr (by simp)
  | cons a as ih =>
    intro r hr hbad
    rw [buildFeatures]
    cases hfa : buildFeature cols lat lon props a with
    | error e => rfl
    | ok f =>
      have hras : r ∈ as := by
        rcases List.mem_cons.mp hr with h | h
        · rw [h, hfa] at hbad; simp [Except.isOk, Except.toBool] at hbad
        · exact h
      show (bindE (buildFeatures cols lat lon props as) fun fs => Except.ok (f :: fs)).isOk = false
      exact bindE_isOk_false_left (ih hras hbad)

/-- The pair filter used by `dropna(subset=[lat, lon])` is the
missing-coordinate filter `validRows`. -/
lemma filter_pair_eq (df : DataFrame) (lat lon : String) :
    df.rows.filter (fun r => [lat, lon].all (fun c => !isNA (getCell r c))) =
      validRows df lat lon := by
  unfold validRows
  exact List.filter_congr (fun r _ => by simp)

/-- Inversion of a successful `dropna` on the coordinate pair. -/
lemma dropna_ok_inv {df : DataFrame} {lat lon : String} {d : DataFrame}
    (h : dropna df [lat, lon] = .ok d) :
    lat ∈ df.columns ∧ lon ∈ df.columns ∧ d = ⟨df.columns, validRows df lat lon⟩ := by
  rw [dropna] at h
  by_cases hc : [lat, lon].all (fun c => decide (c ∈ df.columns)) = true
  · rw [if_pos hc] at h
    simp only [List.all_cons, List.all_nil, Bool.and_true, Bool.and_eq_true,
      decide_eq_true_eq] at hc
    simp only [Except.ok.injEq] at h
    exact ⟨hc.1, hc.2, by rw [← h, filter_pair_eq]⟩
  · rw [if_neg hc] at h
    simp at h

/-- When both coordinate columns are in the schema, `dropna` succeeds and
keeps exactly the rows with non-missing coordinates. -/
lemma dropna_pair {df : DataFrame} {lat lon : String}
    (h1 : lat ∈ df.columns) (h2 : lon ∈ df.columns) :
    dropna df [lat, lon] = .ok ⟨df.columns, validRows df lat lon⟩ := by
  rw [dropna, if_pos (by simp [h1, h2]), filter_pair_eq]

/-- Inversion of a successful conversion: the coordinate columns are in the
schema and the features come from the row loop over the surviving rows. -/
lemma convert_ok_inv {df : DataFrame} {lat lon : String} {props : List String}
    {fc : FeatureCollection} (h : convert_to_geojson df lat lon props = .ok fc) :
    lat ∈ df.columns ∧ lon ∈ df.columns ∧ fc.type = "FeatureCollection" ∧
      buildFeatures df.columns lat lon props (validRows df lat lon) = .ok fc.features := by
  rw [convert_to_geojson] at h
  obtain ⟨d, hd, h⟩ := bindE_ok_iff.mp h
  obtain ⟨h1, h2, hdd⟩ := dropna_ok_inv hd
  subst hdd
  obtain ⟨fs, hb, h⟩ := bindE_ok_iff.mp h
  simp only [Except.ok.injEq] at h
  exact ⟨h1, h2, by rw [← h], by rw [← h]; exact hb⟩

/-- A filter keeps every element exactly when its length is preserved. -/
lemma length_filter_eq_iff {α : Type} (p : α → Bool) (l : List α) :
    (l.filter p).length = l.length ↔ ∀ a ∈ l, p a = true := by
  induction l with
  | nil => simp
  | cons a l ih =>
    by_cases hpa : p a = true
    · simp [List.filter_cons, hpa, ih]
    · rw [List.filter_cons, if_neg hpa]
      simp only [List.length_cons, List.mem_cons]
      constructor
      · intro hlen
        have hle := List.length_filter_le p l
        omega
      · intro hall
        exact absurd (hall a (Or.inl rfl)) hpa

/-- Computation rule: binding a success applies the continuation. -/
lemma bindE_ok_reduce {α β : Type} {a : α} {g : α → Except PyErr β} :
    bindE (.ok a) g = g a := rfl

/-- Computation rule: binding a raised exception propagates it. -/
lemma bindE_error_reduce {α β : Type} {e : PyErr} {g : α → Except PyErr β} :
    bindE (.error e) g = .error e := rfl

/-- Every member of the right list of a `Forall₂` is related to some member
of the left list. -/
lemma forall₂_mem_right {α β : Type} {R : α → β → Prop} :
    ∀ {l₁ : List α} {l₂ : List β}, List.Forall₂ R l₁ l₂ →
      ∀ {b : β}, b ∈ l₂ → ∃ a ∈ l₁, R a b := by
  intro l₁ l₂ h
  induction h with
  | nil => intro b hb; exact absurd hb (by simp)
  | cons hab _ ih =>
    intro b hb
    rcases List.mem_cons.mp hb with hb | hb
    · exact ⟨_, List.mem_cons_self _ _, hb ▸ hab⟩
    · obtain ⟨a, ha, hr⟩ := ih hb
      exact ⟨a, List.mem_cons_of_mem _ ha, hr⟩

/-- Strengthen a `Forall₂` using information available for members of the
left list. -/
lemma forall₂_imp_mem_left {α β : Type} {R S : α → β → Prop} :
    ∀ {l₁ : List α} {l₂ : List β}, List.Forall₂ R l₁ l₂ →
      (∀ a ∈ l₁, ∀ b, R a b → S a b) → List.Forall₂ S l₁ l₂ := by
  intro l₁ l₂ h
  induction h with
  | nil => intro; exact List.Forall₂.nil
  | cons hab _ ih =>
    intro hstr
    exact List.Forall₂.cons
      (hstr _ (List.mem_cons_self _ _) _ hab)
      (ih fun a ha b hr => hstr a (List.mem_cons_of_mem _ ha) b hr)

/-- Rows surviving the filter have non-missing latitude and longitude. -/
lemma validRows_not_na {df : DataFrame} {lat lon : String} {r : Row}
    (hr : r ∈ validRows df lat lon) :
    isNA (getCell r lat) = false ∧ isNA (getCell r lon) = false := by
  unfold validRows at hr
  rw [List.mem_filter] at hr
  have := hr.2
  simp only [Bool.and_eq_true, Bool.not_eq_true'] at this
  exact this

/-- Building a Feature from a row whose latitude or longitude does not
convert to a float raises. -/
lemma buildFeature_not_ok_of_badcoord {cols : List String} {lat lon : String}
    {props : List String} {r : Row} (hlat : lat ∈ cols) (hlon : lon ∈ cols)
    (hbad : (floatOfCell (getCell r lon)).isOk = false ∨
      (floatOfCell (getCell r lat)).isOk = false) :
    (buildFeature cols lat lon props r).isOk = false := by
  rw [buildFeature]
  cases hp : buildProperties cols r props with
  | error e => rfl
  | ok ps =>
    simp only [bindE_ok_reduce]
    rw [seriesGet_of_mem hlon]
    simp only [bindE_ok_reduce]
    cases hlf : floatOfCell (getCell r lon) with
    | error e => rfl
    | ok lonf =>
      have hbadlat : (floatOfCell (getCell r lat)).isOk = false := by
        rcases hbad with hb | hb
        · rw [hlf] at hb; simp [Except.isOk, Except.toBool] at hb
        · exact hb
      simp only [bindE_ok_reduce]
      rw [seriesGet_of_mem hlat]
      simp only [bindE_ok_reduce]
      cases haf : floatOfCell (getCell r lat) with
      | error e => rfl
      | ok latf => rw [haf] at hbadlat; simp [Except.isOk, Except.toBool] at hbadlat

/-- An absent coordinate column makes the conversion raise `KeyError` at the
`dropna` call, before any row is processed. -/
lemma convert_error_of_coord_missing {df : DataFrame} {lat lon : String}
    {props : List String} (habs : lat ∉ df.columns ∨ lon ∉ df.columns) :
    convert_to_geojson df lat lon props = .error .keyError := by
  rw [convert_to_geojson]
  refine bindE_error_left ?_
  rw [dropna, if_neg ?_]
  simp only [List.all_cons, List.all_nil, Bool.and_true, Bool.and_eq_true,
    decide_eq_true_eq]
  tauto

/-- An absent property column makes the conversion raise `KeyError` as soon
as the first surviving row is processed. -/
lemma convert_error_of_prop_missing {df : DataFrame} {lat lon : String}
    {props : List String} {p : String} (hp : p ∈ props) (hpc : p ∉ df.columns)
    (hne : validRows df lat lon ≠ []) :
    convert_to_geojson df lat lon props = .error .keyError := by
  by_cases hlat : lat ∈ df.columns
  · by_cases hlon : lon ∈ df.columns
    · rw [convert_to_geojson, dropna_pair hlat hlon]
      simp only [bindE_ok_reduce]
      obtain ⟨r, rs, hvr⟩ : ∃ r rs, validRows df lat lon = r :: rs := by
        cases hv : validRows df lat lon with
        | nil => exact absurd hv hne
        | cons r rs => exact ⟨r, rs, rfl⟩
      rw [hvr, buildFeatures]
      refine bindE_error_left ?_
      rw [buildFeature, @buildProperties_error_of_missing df.columns r props p hp hpc]
      rfl
    · exact convert_error_of_coord_missing (Or.inr hlon)
  · exact convert_error_of_coord_missing (Or.inl hlat)

/-- C1: for every input row that survives the coordinate filter, the emitted
Feature's geometry is a Point whose coordinates are the longitude converted
to float followed by the latitude converted to float — in that order, never
reversed. -/
theorem C1_coordinates_lon_lat (df : DataFrame) (lat_col lon_col : String)
    (properties_cols : List String) (fc : FeatureCollection)
    (h : convert_to_geojson df lat_col lon_col properties_cols = .ok fc) :
    List.Forall₂ (fun r f =>
        f.geometry.type = "Point" ∧
        ∃ lonf latf,
          floatOfCell (getCell r lon_col) = .ok lonf ∧
          floatOfCell (getCell r lat_col) = .ok latf ∧
          f.geometry.coordinates = [lonf, latf])
      (validRows df lat_col lon_col) fc.features := by
  obtain ⟨h1, h2, _, hb⟩ := convert_ok_inv h
  refine (buildFeatures_ok_forall₂ hb).imp ?_
  intro r f hrf
  obtain ⟨lonf, latf, hlon, hlat, hfe⟩ := buildFeature_ok_parts h1 h2 hrf
  rw [hfe]
  exact ⟨rfl, lonf, latf, hlon, hlat, rfl⟩

/-- Witness for C1 on the spec's two-row scenario frame. -/
theorem C1_coordinates_lon_lat_witness :
    convert_to_geojson dfC1w "LAT" "LON" ["CITY"] = .ok fcC1w ∧
    List.Forall₂ (fun r f =>
        f.geometry.type = "Point" ∧
        ∃ lonf latf,
          floatOfCell (getCell r "LON") = .ok lonf ∧
          floatOfCell (getCell r "LAT") = .ok latf ∧
          f.geometry.coordinates = [lonf, latf])
      (validRows dfC1w "LAT" "LON") fcC1w.features :=
  ⟨rfl, C1_coordinates_lon_lat dfC1w "LAT" "LON" ["CITY"] fcC1w rfl⟩

/-- C2: when the conversion returns a FeatureCollection, its feature count
is at most the input row count, with equality exactly when no input row has
a missing latitude or longitude. -/
theorem C2_feature_count (df : DataFrame) (lat_col lon_col : String)
    (properties_cols : List String) (fc : FeatureCollection)
    (h : convert_to_geojson df lat_col lon_col properties_cols = .ok fc) :
    fc.features.length ≤ df.rows.length ∧
      (fc.features.length = df.rows.length ↔
        ∀ r ∈ df.rows, isNA (getCell r lat_col) = false ∧ isNA (getCell r lon_col) = false) := by
  obtain ⟨_, _, _, hb⟩ := convert_ok_inv h
  have hlen : (validRows df lat_col lon_col).length = fc.features.length :=
    (buildFeatures_ok_forall₂ hb).length_eq
  constructor
  · rw [← hlen]
    exact List.length_filter_le _ _
  · rw [← hlen]
    unfold validRows
    rw [length_filter_eq_iff]
    simp only [Bool.and_eq_true, Bool.not_eq_true']

/-- Witness for C2: on the two-row scenario frame one row is dropped, so the
count is strictly below the input count and the equality side of the iff
fails together with its right-hand side. -/
theorem C2_feature_count_witness :
    fcC1w.features.length ≤ dfC1w.rows.length ∧
      (fcC1w.features.length = dfC1w.rows.length ↔
        ∀ r ∈ dfC1w.rows, isNA (getCell r "LAT") = false ∧ isNA (getCell r "LON") = false) :=
  C2_feature_count dfC1w "LAT" "LON" ["CITY"] fcC1w rfl

/-- C3 counterexample: a plain `datetime` property value (which is not a
`pd.Timestamp`, nor a numpy scalar) is passed through unchanged, so the
emitted Feature stores a date/time object — not a string/number/boolean/null
— under `properties`, contradicting the claim. -/
theorem C3_counterexample :
    convert_to_geojson
        ⟨["LAT", "LON", "FECHA"],
          [[("LAT", .pyFloat (.finite 4.5)), ("LON", .pyFloat (.finite (-74.1))),
            ("FECHA", .pyDatetime "2025-03-14")]]⟩
        "LAT" "LON" ["FECHA"] =
      .ok ⟨"FeatureCollection",
        [⟨"Feature", ⟨"Point", [.finite (-74.1), .finite 4.5]⟩,
          [("FECHA", .pyDatetime "2025-03-14")]⟩]⟩ ∧
    jsonSerializable (CellValue.pyDatetime "2025-03-14") = false :=
  ⟨rfl, rfl⟩

/-- C3 (amended): every emitted property value is the normalization of the
row's cell, where normalization stringifies exactly the four handled wrapper
types (`pd.Timestamp`, `np.integer`, `np.floating`, `np.bool_`) and passes
every other value through unchanged — so properties are guaranteed to be
string/number/boolean/null only when the underlying cells are plain scalars
or one of those four types. -/
theorem C3_properties_normalization :
    (∀ (df : DataFrame) (lat_col lon_col : String) (properties_cols : List String)
        (fc : FeatureCollection),
        convert_to_geojson df lat_col lon_col properties_cols = .ok fc →
        ∀ f ∈ fc.features, ∃ r ∈ validRows df lat_col lon_col,
          f.properties = properties_cols.map (fun c => (c, normalizeValue (getCell r c)))) ∧
    (∀ v, isUnserializableWrapper v = true → normalizeValue v = .pyStr (pyStrRepr v)) ∧
    (∀ v, isUnserializableWrapper v = false → normalizeValue v = v) := by
  refine ⟨?_, ?_, ?_⟩
  · intro df lat_col lon_col props fc h f hf
    obtain ⟨h1, h2, _, hb⟩ := convert_ok_inv h
    obtain ⟨r, hr, hrf⟩ := forall₂_mem_right (buildFeatures_ok_forall₂ hb) hf
    obtain ⟨lonf, latf, _, _, hfe⟩ := buildFeature_ok_parts h1 h2 hrf
    exact ⟨r, hr, by rw [hfe]⟩
  · intro v hv
    simp [normalizeValue, hv]
  · intro v hv
    simp [normalizeValue, hv]

/-- Witness for C3 (amended) on the spec's date scenario: the
`pd.Timestamp` cell is emitted as its string form. -/
theorem C3_properties_normalization_witness :
    (∃ r ∈ validRows dfC3w "LAT" "LON",
        [("FECHA", CellValue.pyStr "2025-03-14 00:00:00")] =
          ["FECHA"].map (fun c => (c, normalizeValue (getCell r c)))) ∧
    normalizeValue (CellValue.pdTimestamp "2025-03-14 00:00:00") =
      CellValue.pyStr "2025-03-14 00:00:00" ∧
    normalizeValue (CellValue.pyStr "Bogota") = CellValue.pyStr "Bogota" :=
  ⟨C3_properties_normalization.1 dfC3w "LAT" "LON" ["FECHA"] fcC3w rfl
      ⟨"Feature", ⟨"Point", [.finite (-74.1), .finite 4.5]⟩,
        [("FECHA", CellValue.pyStr "2025-03-14 00:00:00")]⟩
      (List.mem_singleton.mpr rfl),
   C3_properties_normalization.2.1 _ rfl,
   C3_properties_normalization.2.2 _ rfl⟩

/-- C4 counterexample: with a property column absent from the schema but no
surviving row, the converter returns the empty FeatureCollection instead of
raising a schema error — so the absence of a `property_fields` name is not
checked up front. -/
theorem C4_counterexample :
    convert_to_geojson
        ⟨["LAT", "LON"], [[("LAT", .pyNone), ("LON", .pyFloat (.finite 1))]]⟩
        "LAT" "LON" ["MISSING"] = .ok ⟨"FeatureCollection", []⟩ :=
  rfl

/-- C4 (amended): an absent `lat_field`/`lon_field` raises `KeyError` up
front, before any row is processed; an absent `property_fields` name raises
`KeyError` only once the first surviving row is processed (and raises
nothing when no row survives — see C10).  In both raising cases no partial
output escapes. -/
theorem C4_schema_errors :
    (∀ (df : DataFrame) (lat_col lon_col : String) (properties_cols : List String),
        lat_col ∉ df.columns ∨ lon_col ∉ df.columns →
        convert_to_geojson df lat_col lon_col properties_cols = .error .keyError) ∧
    (∀ (df : DataFrame) (lat_col lon_col : String) (properties_cols : List String) (p : String),
        p ∈ properties_cols → p ∉ df.columns → validRows df lat_col lon_col ≠ [] →
        convert_to_geojson df lat_col lon_col properties_cols = .error .keyError) :=
  ⟨fun _ _ _ _ habs => convert_error_of_coord_missing habs,
   fun _ _ _ _ _ hp hpc hne => convert_error_of_prop_missing hp hpc hne⟩

/-- Witness for C4 (amended): an absent latitude column raises, and an
absent property column raises once a row survives. -/
theorem C4_schema_errors_witness :
    convert_to_geojson ⟨["A"], []⟩ "LAT" "LON" [] = .error .keyError ∧
    convert_to_geojson
        ⟨["LAT", "LON"], [[("LAT", .pyFloat (.finite 4)), ("LON", .pyFloat (.finite 5))]]⟩
        "LAT" "LON" ["MISSING"] = .error .keyError :=
  ⟨C4_schema_errors.1 ⟨["A"], []⟩ "LAT" "LON" [] (Or.inl (by decide)),
   C4_schema_errors.2
     ⟨["LAT", "LON"], [[("LAT", .pyFloat (.finite 4)), ("LON", .pyFloat (.finite 5))]]⟩
     "LAT" "LON" ["MISSING"] "MISSING" (by decide) (by decide) (by decide)⟩

/-- C5 counterexample: a present but non-numeric latitude (`"abc"`) in the
first row makes the whole conversion raise `ValueError`; the second, fully
valid row is not converted — the batch aborts rather than dropping the
offending row and continuing. -/
theorem C5_counterexample :
    convert_to_geojson
        ⟨["LAT", "LON", "CITY"],
          [[("LAT", .pyStr "abc"), ("LON", .pyFloat (.finite (-74.0))), ("CITY", .pyStr "X")],
           [("LAT", .pyFloat (.finite 4.5)), ("LON", .pyFloat (.finite (-74.1))),
            ("CITY", .pyStr "Bogota")]]⟩
        "LAT" "LON" ["CITY"] = .error .valueError :=
  rfl

/-- C5 (amended): a surviving row whose latitude or longitude value does not
convert to a float makes `convert_to_geojson` raise, aborting the whole
batch; rows are only ever dropped for missing/null coordinates, never for
malformed ones. -/
theorem C5_malformed_coordinate_aborts (df : DataFrame) (lat_col lon_col : String)
    (properties_cols : List String) (r : Row)
    (hlat : lat_col ∈ df.columns) (hlon : lon_col ∈ df.columns)
    (hr : r ∈ validRows df lat_col lon_col)
    (hbad : (floatOfCell (getCell r lon_col)).isOk = false ∨
      (floatOfCell (getCell r lat_col)).isOk = false) :
    (convert_to_geojson df lat_col lon_col properties_cols).isOk = false := by
  rw [convert_to_geojson, dropna_pair hlat hlon]
  simp only [bindE_ok_reduce]
  exact bindE_isOk_false_left
    (buildFeatures_not_ok_of_mem hr (buildFeature_not_ok_of_badcoord hlat hlon hbad))

/-- Witness for C5 (amended): a comma-decimal latitude aborts the call. -/
theorem C5_malformed_coordinate_aborts_witness :
    (convert_to_geojson
        ⟨["LAT", "LON"], [[("LAT", .pyStr "4,5"), ("LON", .pyFloat (.finite 1))]]⟩
        "LAT" "LON" []).isOk = false :=
  C5_malformed_coordinate_aborts
    ⟨["LAT", "LON"], [[("LAT", .pyStr "4,5"), ("LON", .pyFloat (.finite 1))]]⟩
    "LAT" "LON" [] [("LAT", .pyStr "4,5"), ("LON", .pyFloat (.finite 1))]
    (by decide) (by decide) (by decide) (Or.inr (by decide))

/-- C6 counterexample: a property value of an unhandled runtime type (an
opaque object such as a Python `set`) is passed through unchanged — it is
not converted to a string, and the resulting document is not
JSON-serializable. -/
theorem C6_counterexample :
    convert_to_geojson
        ⟨["LAT", "LON", "X"],
          [[("LAT", .pyFloat (.finite 4)), ("LON", .pyFloat (.finite 5)),
            ("X", .other "set")]]⟩
        "LAT" "LON" ["X"] =
      .ok ⟨"FeatureCollection",
        [⟨"Feature", ⟨"Point", [.finite 5, .finite 4]⟩, [("X", CellValue.other "set")]⟩]⟩ ∧
    jsonSerializable (CellValue.other "set") = false :=
  ⟨rfl, rfl⟩

/-- C6 (amended): values outside the four handled wrapper types pass through
the normalization unchanged (there is no string fallback), so the returned
FeatureCollection is JSON-serializable precisely when every selected
property cell normalizes to a plain scalar. -/
theorem C6_serialization_no_fallback :
    (∀ v, isUnserializableWrapper v = false → normalizeValue v = v) ∧
    (∀ (df : DataFrame) (lat_col lon_col : String) (properties_cols : List String)
        (fc : FeatureCollection),
        convert_to_geojson df lat_col lon_col properties_cols = .ok fc →
        (∀ r ∈ validRows df lat_col lon_col, ∀ c ∈ properties_cols,
            jsonSerializable (normalizeValue (getCell r c)) = true) →
        ∀ f ∈ fc.features, ∀ kv ∈ f.properties, jsonSerializable kv.2 = true) := by
  constructor
  · intro v hv
    simp [normalizeValue, hv]
  · intro df lat_col lon_col props fc h hall f hf kv hkv
    obtain ⟨h1, h2, _, hb⟩ := convert_ok_inv h
    obtain ⟨r, hr, hrf⟩ := forall₂_mem_right (buildFeatures_ok_forall₂ hb) hf
    obtain ⟨lonf, latf, _, _, hfe⟩ := buildFeature_ok_parts h1 h2 hrf
    have hprops : f.properties = props.map (fun c => (c, normalizeValue (getCell r c))) := by
      rw [hfe]
    rw [hprops] at hkv
    simp only [List.mem_map] at hkv
    obtain ⟨c, hc, hkveq⟩ := hkv
    rw [← hkveq]
    exact hall r hr c hc

/-- Witness for C6 (amended): an opaque object passes through unchanged, and
on a frame whose property cells are plain scalars every emitted property is
serializable. -/
theorem C6_serialization_no_fallback_witness :
    normalizeValue (CellValue.other "set") = CellValue.other "set" ∧
    jsonSerializable (CellValue.pyStr "Bogota") = true :=
  ⟨C6_serialization_no_fallback.1 _ rfl,
   C6_serialization_no_fallback.2 dfC6w "LAT" "LON" ["CITY"] fcC6w rfl (by decide)
     ⟨"Feature", ⟨"Point", [.finite 5, .finite 4]⟩, [("CITY", CellValue.pyStr "Bogota")]⟩
     (List.mem_singleton.mpr rfl)
     ("CITY", CellValue.pyStr "Bogota") (List.mem_singleton.mpr rfl)⟩

/-- C7: the surviving rows are a sublist of the input rows (same relative
order), and the emitted features correspond to them one-to-one, in that
order. -/
theorem C7_order_preserved (df : DataFrame) (lat_col lon_col : String)
    (properties_cols : List String) (fc : FeatureCollection)
    (h : convert_to_geojson df lat_col lon_col properties_cols = .ok fc) :
    (validRows df lat_col lon_col).Sublist df.rows ∧
      List.Forall₂
        (fun r f => buildFeature df.columns lat_col lon_col properties_cols r = .ok f)
        (validRows df lat_col lon_col) fc.features := by
  obtain ⟨_, _, _, hb⟩ := convert_ok_inv h
  exact ⟨List.filter_sublist df.rows, buildFeatures_ok_forall₂ hb⟩

/-- Witness for C7 on the two-row scenario frame. -/
theorem C7_order_preserved_witness :
    (validRows dfC1w "LAT" "LON").Sublist dfC1w.rows ∧
      List.Forall₂
        (fun r f => buildFeature dfC1w.columns "LAT" "LON" ["CITY"] r = .ok f)
        (validRows dfC1w "LAT" "LON") fcC1w.features :=
  C7_order_preserved dfC1w "LAT" "LON" ["CITY"] fcC1w rfl

/-- C8: the converter is deterministic — two calls on the same input that
return FeatureCollections return structurally identical ones.  (The
embedding is a pure function of its arguments: the source reads no state
besides its four parameters.) -/
theorem C8_deterministic (df : DataFrame) (lat_col lon_col : String)
    (properties_cols : List String) (fc₁ fc₂ : FeatureCollection)
    (h₁ : convert_to_geojson df lat_col lon_col properties_cols = .ok fc₁)
    (h₂ : convert_to_geojson df lat_col lon_col properties_cols = .ok fc₂) :
    fc₁ = fc₂ := by
  rw [h₁] at h₂
  simp only [Except.ok.injEq] at h₂
  exact h₂

/-- Witness for C8 on the single-row frame `dfC9w`. -/
theorem C8_deterministic_witness : fcC9w = fcC9w :=
  C8_deterministic dfC9w "LAT" "LON" [] fcC9w fcC9w rfl rfl

/-- C9 counterexample: an infinite latitude is not missing, so `dropna`
keeps the row and the emitted Feature carries a non-finite coordinate —
contradicting the claim that emitted coordinates are always finite. -/
theorem C9_counterexample :
    convert_to_geojson
        ⟨["LAT", "LON"], [[("LAT", .pyFloat .inf), ("LON", .pyFloat (.finite 1))]]⟩
        "LAT" "LON" [] =
      .ok ⟨"FeatureCollection", [⟨"Feature", ⟨"Point", [.finite 1, .inf]⟩, []⟩]⟩ ∧
    PyFloat.isFinite PyFloat.inf = false :=
  ⟨rfl, rfl⟩

/-- C9 (amended): every emitted Feature comes from a row whose latitude and
longitude cells are present (non-missing — in particular not `None` and not
a float `NaN`), and its coordinates are the float conversions of those
cells; finiteness is not guaranteed (an infinite input float, or a string
parsing to `inf`/`nan`, is emitted as-is). -/
theorem C9_coordinates_present (df : DataFrame) (lat_col lon_col : String)
    (properties_cols : List String) (fc : FeatureCollection)
    (h : convert_to_geojson df lat_col lon_col properties_cols = .ok fc) :
    List.Forall₂ (fun r f =>
        isNA (getCell r lat_col) = false ∧ isNA (getCell r lon_col) = false ∧
        getCell r lat_col ≠ CellValue.pyFloat .nan ∧
        getCell r lon_col ≠ CellValue.pyFloat .nan ∧
        ∃ lonf latf,
          floatOfCell (getCell r lon_col) = .ok lonf ∧
          floatOfCell (getCell r lat_col) = .ok latf ∧
          f.geometry.coordinates = [lonf, latf])
      (validRows df lat_col lon_col) fc.features := by
  obtain ⟨h1, h2, _, hb⟩ := convert_ok_inv h
  refine forall₂_imp_mem_left (buildFeatures_ok_forall₂ hb) ?_
  intro r hr f hrf
  obtain ⟨hna1, hna2⟩ := validRows_not_na hr
  obtain ⟨lonf, latf, hlon, hlat, hfe⟩ := buildFeature_ok_parts h1 h2 hrf
  refine ⟨hna1, hna2, ?_, ?_, lonf, latf, hlon, hlat, by rw [hfe]⟩
  · intro heq
    rw [heq] at hna1
    simp [isNA] at hna1
  · intro heq
    rw [heq] at hna2
    simp [isNA] at hna2

/-- Witness for C9 (amended) on the single-row frame `dfC9w`. -/
theorem C9_coordinates_present_witness :
    List.Forall₂ (fun r f =>
        isNA (getCell r "LAT") = false ∧ isNA (getCell r "LON") = false ∧
        getCell r "LAT" ≠ CellValue.pyFloat .nan ∧
        getCell r "LON" ≠ CellValue.pyFloat .nan ∧
        ∃ lonf latf,
          floatOfCell (getCell r "LON") = .ok lonf ∧
          floatOfCell (getCell r "LAT") = .ok latf ∧
          f.geometry.coordinates = [lonf, latf])
      (validRows dfC9w "LAT" "LON") fcC9w.features :=
  C9_coordinates_present dfC9w "LAT" "LON" [] fcC9w rfl

/-- C10 counterexample: on an empty frame whose schema lacks the coordinate
columns, `dropna` raises `KeyError`, so the call does not return the empty
FeatureCollection — the claim's "raises no error at all" needs the
coordinate columns to be present. -/
theorem C10_counterexample :
    convert_to_geojson ⟨[], []⟩ "LAT" "LON" ["PRICE"] = .error .keyError :=
  rfl

/-- C10 (amended): provided `lat_field` and `lon_field` are present in the
schema, if no row survives the missing-coordinate filter (in particular if
there are no rows at all) the converter returns the empty FeatureCollection
and never reads the `property_fields` columns — their absence from the
schema raises no error. -/
theorem C10_empty_no_property_read (df : DataFrame) (lat_col lon_col : String)
    (properties_cols : List String)
    (hlat : lat_col ∈ df.columns) (hlon : lon_col ∈ df.columns)
    (hempty : validRows df lat_col lon_col = []) :
    convert_to_geojson df lat_col lon_col properties_cols = .ok ⟨"FeatureCollection", []⟩ := by
  rw [convert_to_geojson, dropna_pair hlat hlon]
  simp only [bindE_ok_reduce]
  show bindE (buildFeatures df.columns lat_col lon_col properties_cols
    (validRows df lat_col lon_col)) _ = _
  rw [hempty]
  rfl

/-- Witness for C10 (amended): one row, filtered out for a missing latitude,
with an absent property column — the call returns the empty collection. -/
theorem C10_empty_no_property_read_witness :
    convert_to_geojson
        ⟨["LAT", "LON"], [[("LAT", .pyNone), ("LON", .pyFloat (.finite 2))]]⟩
        "LAT" "LON" ["ABSENT"] = .ok ⟨"FeatureCollection", []⟩ :=
  C10_empty_no_property_read
    ⟨["LAT", "LON"], [[("LAT", .pyNone), ("LON", .pyFloat (.finite 2))]]⟩
    "LAT" "LON" ["ABSENT"] (by decide) (by decide) (by decide)

end Dash
